import Mathlib

/-!
# Verification of the PayPal MCP Server credential manager and tools

Shallow embedding of the repository's credential-lifecycle code
(`PayPalAuthService` in `src/services/auth.service.ts`), the error
normalizer (`handleRequestError`), and the tool handlers
(`getUserInfo` in `src/tools/user.tools.ts`, `createSubscription` in
`src/tools/payment.tools.ts`), together with theorems settling the
specification's claims about them.

Times are modelled as integers (milliseconds, as produced by
`Date.now()`), strings as Lean `String`, and JavaScript `null` /
`undefined` as `Option`.  Network effects are made explicit: every
function that in the source issues an HTTP request takes the provider's
response (or failure) as a parameter and returns the request it issued
and/or a count of network calls alongside its result.
-/

namespace PayPalMCP

/-- JavaScript truthiness of an optional string
(`undefined`, `null` and `""` are falsy). -/
def strTruthy : Option String → Bool
  | some s => s ≠ ""
  | none => false

/-- The structured body of a provider failure response
(`error.response?.data`), as read by `handleRequestError`:
only `error_description` and `message` are load-bearing. -/
structure ErrorData where
  error_description : Option String
  message : Option String
deriving Repr, DecidableEq

/-- An axios error as observed by `handleRequestError`:
`isAxiosError` flag, optional response status and body, the
response's retry-after header (present in the wire response but
never read by the code), and the error's original message (what a
passthrough `Promise.reject(error)` surfaces). -/
structure AxiosError where
  isAxiosError : Bool
  status : Option Nat
  data : Option ErrorData
  retryAfter : Option String
  origMessage : String
deriving Repr, DecidableEq

/-- The error a rejected promise carries after `handleRequestError`:
either a freshly constructed `Error` with the given message, or the
original error passed through unchanged. -/
inductive RejectedError where
  | fresh (msg : String)
  | passthrough (e : AxiosError)
deriving Repr, DecidableEq

/-- The message the caller observes on the rejected error. -/
def RejectedError.msg : RejectedError → String
  | .fresh m => m
  | .passthrough e => e.origMessage

/-- The `TokenResponse` interface of `auth.service.ts`: the provider's
token-endpoint response, plus the locally added `expiration` timestamp
(optional in the interface, set by `getAccessToken`). -/
structure TokenResponse where
  access_token : String
  token_type : String
  app_id : String
  expires_in : Int
  nonce : String
  scope : String
  expiration : Option Int
deriving Repr, DecidableEq

/-- `this.tokenExpiryBuffer = 300` — seconds of safety buffer before
expiration. -/
def tokenExpiryBuffer : Int := 300

/-- `PayPalAuthOptions.environment`. -/
inductive Environment where
  | sandbox
  | live
deriving Repr, DecidableEq

/-- The constructor options of `PayPalAuthService`. -/
structure PayPalAuthOptions where
  clientId : String
  clientSecret : String
  environment : Environment
deriving Repr, DecidableEq

/-- Base-URL selection in the `PayPalAuthService` constructor:
sandbox and live map to the two fixed endpoints. -/
def baseUrlFor : Environment → String
  | .sandbox => "https://api-m.sandbox.paypal.com"
  | .live => "https://api-m.paypal.com"

/-- The mutable fields of a `PayPalAuthService` instance together with
its immutable configuration. -/
structure ServiceState where
  clientId : String
  clientSecret : String
  baseUrl : String
  tokenData : Option TokenResponse
deriving Repr, DecidableEq

/-- The `PayPalAuthService` constructor: copies the credentials,
selects the base URL from the environment, and starts with no cached
token. -/
def mkService (o : PayPalAuthOptions) : ServiceState :=
  { clientId := o.clientId
    clientSecret := o.clientSecret
    baseUrl := baseUrlFor o.environment
    tokenData := none }

/-- `PayPalAuthService.handleRequestError`, acting on the cached token
(the only instance state it touches).  Mirrors the source: on an axios
error with status 401 it clears the cached token and rejects with a
fixed message; otherwise, a truthy `data.error_description` or
`data.message` produces a prefixed message; anything else is rejected
unchanged.  Returns the new cached token and the rejected error. -/
def handleRequestError (tok : Option TokenResponse) (e : AxiosError) :
    Option TokenResponse × RejectedError :=
  if e.isAxiosError then
    if e.status = some 401 then
      (none, .fresh "Authentication failed with PayPal API. Token may have expired.")
    else if strTruthy (e.data.bind (fun d => d.error_description)) then
      (tok, .fresh ("PayPal API error: " ++ ((e.data.bind (fun d => d.error_description)).getD "")))
    else if strTruthy (e.data.bind (fun d => d.message)) then
      (tok, .fresh ("PayPal API error: " ++ ((e.data.bind (fun d => d.message)).getD "")))
    else
      (tok, .passthrough e)
  else
    (tok, .passthrough e)

/-- The base64 alphabet. -/
def base64Alphabet : List Char :=
  "ABCDEFGHIJKLMNOPQRSTUVWXYZabcdefghijklmnopqrstuvwxyz0123456789+/".toList

/-- One base64 digit. -/
def b64digit (n : Nat) : Char := base64Alphabet.getD n (Char.ofNat 65)

/-- Base64 of a byte sequence (values < 256), with padding, as computed
by `Buffer.from(s).toString(\x27base64\x27)`. -/
def base64Encode : List Nat → String
  | [] => ""
  | [a] =>
      String.mk [b64digit (a / 4), b64digit (a % 4 * 16)] ++ "=="
  | [a, b] =>
      String.mk [b64digit (a / 4), b64digit (a % 4 * 16 + b / 16),
        b64digit (b % 16 * 4)] ++ "="
  | a :: b :: c :: rest =>
      String.mk [b64digit (a / 4), b64digit (a % 4 * 16 + b / 16),
        b64digit (b % 16 * 4 + c / 64), b64digit (c % 64)] ++ base64Encode rest

/-- Base64 of a string's UTF-8 bytes. -/
def base64OfString (s : String) : String :=
  base64Encode (s.toUTF8.toList.map (fun b => b.toNat))

/-- The credential-exchange HTTP request `getAccessToken` issues. -/
structure ExchangeRequest where
  url : String
  authHeader : String
  contentType : String
  body : String
deriving Repr, DecidableEq

/-- The request built in `getAccessToken`: POST `/v1/oauth2/token` with
Basic auth over `clientId:clientSecret` and the client-credentials
grant body. -/
def exchangeRequest (clientId clientSecret : String) : ExchangeRequest :=
  { url := "/v1/oauth2/token"
    authHeader := "Basic " ++ base64OfString (clientId ++ ":" ++ clientSecret)
    contentType := "application/x-www-form-urlencoded"
    body := "grant_type=client_credentials" }

/-- The provider's reaction to one exchange request: a token response,
or a failure delivered to `getAccessToken` through the response
interceptor (`handleRequestError`). -/
inductive ExchangeOutcome where
  | success (r : TokenResponse)
  | failure (e : AxiosError)
deriving Repr, DecidableEq

/-- `PayPalAuthService.getAccessToken`, with `Date.now()` passed as
`now` and the provider's reaction as `outcome`.  Builds the Basic-auth
exchange request; on success stores the response with
`expiration = now + expires_in * 1000` and returns the token; on
failure the interceptor (`handleRequestError`) first updates the
cached token, then the surrounding catch replaces the error with the
fixed message.  Returns (new cached token, issued request, result). -/
def getAccessToken (clientId clientSecret : String) (tok : Option TokenResponse)
    (now : Int) (outcome : ExchangeOutcome) :
    Option TokenResponse × ExchangeRequest × Except String String :=
  match outcome with
  | .success r =>
      let td : TokenResponse := { r with expiration := some (now + r.expires_in * 1000) }
      (some td, exchangeRequest clientId clientSecret, .ok td.access_token)
  | .failure e =>
      ((handleRequestError tok e).1, exchangeRequest clientId clientSecret,
        .error "Failed to authenticate with PayPal API")

/-- The fast-path guard of `ensureAccessToken`:
`this.tokenData && this.tokenData.expiration &&
Date.now() < this.tokenData.expiration - this.tokenExpiryBuffer * 1000`
(JavaScript truthiness: an `expiration` of `0` is falsy). -/
def fastPathOk (tok : Option TokenResponse) (now : Int) : Bool :=
  match tok with
  | some td =>
      match td.expiration with
      | some e => e ≠ 0 && decide (now < e - tokenExpiryBuffer * 1000)
      | none => false
  | none => false

/-- `PayPalAuthService.ensureAccessToken`: return the cached token when
the fast-path guard holds, otherwise call `getAccessToken`.  Returns
(new cached token, number of network calls issued, result). -/
def ensureAccessToken (clientId clientSecret : String) (tok : Option TokenResponse)
    (now : Int) (outcome : ExchangeOutcome) :
    Option TokenResponse × Nat × Except String String :=
  match tok with
  | some td =>
      if fastPathOk tok now then
        (tok, 0, .ok td.access_token)
      else
        let r := getAccessToken clientId clientSecret tok now outcome
        (r.1, 1, r.2.2)
  | none =>
      let r := getAccessToken clientId clientSecret tok now outcome
      (r.1, 1, r.2.2)

/-- `PayPalAuthService.verifyCredentials`: one forced `getAccessToken`;
`true` on success, and on failure a fixed operator-safe message.
Returns (new cached token, issued request, result). -/
def verifyCredentials (clientId clientSecret : String) (tok : Option TokenResponse)
    (now : Int) (outcome : ExchangeOutcome) :
    Option TokenResponse × ExchangeRequest × Except String Bool :=
  match getAccessToken clientId clientSecret tok now outcome with
  | (tok2, req, .ok _) => (tok2, req, .ok true)
  | (tok2, req, .error _) =>
      (tok2, req, .error "Invalid PayPal credentials. Please check your client ID and secret.")

/-! ## JSON-like payloads and the logging sanitizer -/

mutual
/-- A JSON-like value, as passed to tool handlers and loggers. -/
inductive JVal where
  | str : String → JVal
  | num : Int → JVal
  | obj : JObj → JVal

/-- The field list of a JSON object (keys are unique in JavaScript
objects; the order is the insertion order). -/
inductive JObj where
  | nil : JObj
  | cons : String → JVal → JObj → JObj
end

/-- The fixed mask substituted for sensitive values. -/
def redactionMask : String := "***"

/-- The secret-like key patterns the sanitizer matches
case-insensitively. -/
def secretKeyPatterns : List String :=
  ["secret", "token", "password", "security_code", "number", "cvv"]

/-- Whether `pat` occurs as a contiguous run inside `l`. -/
def containsSub (pat : List Char) : List Char → Bool
  | [] => pat.isPrefixOf []
  | c :: rest => pat.isPrefixOf (c :: rest) || containsSub pat rest

/-- ASCII lower-casing of one character. -/
def lowerChar (c : Char) : Char :=
  if 65 ≤ c.toNat ∧ c.toNat ≤ 90 then Char.ofNat (c.toNat + 32) else c

/-- A key is sensitive when, lower-cased, it contains one of the
secret-like patterns. -/
def isSensitiveKey (k : String) : Bool :=
  secretKeyPatterns.any (fun p => containsSub p.toList (k.toList.map lowerChar))

mutual
/-- Modelled from the spec: `sanitizeForLogging` is declared in
`src/utils/validation.ts`, which is not part of the provided sources
(only its importers are).  Per the spec's redaction contract, it
recursively masks the value of every field whose key case-insensitively
matches a secret-like pattern, replacing it with a fixed mask, and
leaves all other fields untouched. -/
def sanitizeForLogging : JVal → JVal
  | .str s => .str s
  | .num n => .num n
  | .obj o => .obj (sanitizeObj o)

/-- Field-list worker of `sanitizeForLogging`. -/
def sanitizeObj : JObj → JObj
  | .nil => .nil
  | .cons k v rest =>
      .cons k (if isSensitiveKey k then .str redactionMask else sanitizeForLogging v)
        (sanitizeObj rest)
end

/-- Key lookup in a JSON object. -/
def JObj.lookup : JObj → String → Option JVal
  | .nil, _ => none
  | .cons k v rest, key => if k = key then some v else JObj.lookup rest key

/-- Removal of a key from a JSON object, as performed by the rest
pattern in `const \x7b plan_id, ...rest \x7d = args`. -/
def JObj.removeKey : JObj → String → JObj
  | .nil, _ => .nil
  | .cons k v rest, key =>
      if k = key then JObj.removeKey rest key
      else .cons k v (JObj.removeKey rest key)

/-! ## Tool handlers -/

/-- An outbound HTTP request with a JSON body. -/
structure JsonRequest where
  url : String
  authorization : String
  body : JObj

/-- The arguments of the `get_userinfo` tool. -/
structure UserInfoArgs where
  access_token : String

/-- `getUserInfo` in `src/tools/user.tools.ts`: ignores the service
instance entirely and issues a GET to the fixed live identity endpoint
with the caller-supplied token as bearer. -/
def getUserInfo (args : UserInfoArgs) (_authService : ServiceState) : JsonRequest :=
  { url := "https://api-m.paypal.com/v1/identity/oauth2/userinfo?schema=paypalv1.1"
    authorization := "Bearer " ++ args.access_token
    body := .nil }

/-- The request built by `createSubscription` in
`src/tools/payment.tools.ts`, together with the plan id it logs:
POST `/v1/billing/subscriptions` with body `rest` (the arguments minus
`plan_id`); `plan_id` appears only in the log line. -/
structure SubscriptionAction where
  path : String
  body : JObj
  loggedPlanId : Option JVal

/-- `createSubscription`: destructures `plan_id` out of the validated
arguments, logs it, and posts the remaining fields. -/
def createSubscription (args : JObj) : SubscriptionAction :=
  { path := "/v1/billing/subscriptions"
    body := args.removeKey "plan_id"
    loggedPlanId := args.lookup "plan_id" }

/-! ## Cooperative-concurrency model of `ensureAccessToken`

The runtime is single-threaded with suspension only at network-call
boundaries (`await`).  A call to `ensureAccessToken` therefore runs
atomically up to the point where `getAccessToken` awaits the provider,
and atomically again from the response's arrival.  `CEvent.start i t`
is call `i` running the synchronous prefix at time `t` (the guard
check and, on a miss, issuing the exchange request); `CEvent.arrive i r
t` is the provider's response to call `i`'s exchange arriving at time
`t` and call `i` running the continuation of `getAccessToken` (storing
the token and resolving).  The source has no single-flight gate: each
cache-missing call issues its own exchange. -/

/-- A scheduler event of the cooperative-concurrency model. -/
inductive CEvent where
  | start (i : Nat) (t : Int)
  | arrive (i : Nat) (r : TokenResponse) (t : Int)

/-- The shared machine state: the service's cached token, the number of
exchange HTTP calls issued so far, the calls awaiting a provider
response, and the resolved calls with the token each returned. -/
structure SysState where
  tokenData : Option TokenResponse
  exchangeCalls : Nat
  pending : List Nat
  results : List (Nat × String)
deriving Repr, DecidableEq

/-- The initial state: cold cache, no calls issued, in flight, or
resolved. -/
def coldSys : SysState :=
  { tokenData := none, exchangeCalls := 0, pending := [], results := [] }

/-- One scheduler step.  On `start`, the call runs
`ensureAccessToken`'s guard: a fast-path hit resolves immediately with
the cached token; a miss issues an exchange call and suspends.  On
`arrive`, the call's `getAccessToken` continuation stores the response
(overwriting whatever is cached) and resolves with its token. -/
def stepSys (s : SysState) : CEvent → SysState
  | .start i t =>
      match s.tokenData with
      | some td =>
          if fastPathOk (some td) t then
            { s with results := s.results ++ [(i, td.access_token)] }
          else
            { s with exchangeCalls := s.exchangeCalls + 1, pending := s.pending ++ [i] }
      | none =>
          { s with exchangeCalls := s.exchangeCalls + 1, pending := s.pending ++ [i] }
  | .arrive i r t =>
      if i ∈ s.pending then
        { s with
          tokenData := some { r with expiration := some (t + r.expires_in * 1000) }
          pending := s.pending.erase i
          results := s.results ++ [(i, r.access_token)] }
      else s

/-- Running a schedule from a state. -/
def runSys (s : SysState) (es : List CEvent) : SysState :=
  es.foldl stepSys s

/-! ## Derived readings of `handleRequestError` -/

/-- The structured-body field `handleRequestError` surfaces for non-401
errors: `error_description` when truthy, else `message` when truthy,
else nothing. -/
def exposedField (e : AxiosError) : Option String :=
  if strTruthy (e.data.bind (fun d => d.error_description)) then
    e.data.bind (fun d => d.error_description)
  else if strTruthy (e.data.bind (fun d => d.message)) then
    e.data.bind (fun d => d.message)
  else none

/-! ## Concrete sample values used by counterexamples and witnesses -/

/-- A sample provider token response. -/
def tdA : TokenResponse :=
  { access_token := "tokA", token_type := "Bearer", app_id := "APP-80W284485P519543T",
    expires_in := 32400, nonce := "nonceA", scope := "openid", expiration := none }

/-- A second sample provider token response with a different token
string. -/
def tdB : TokenResponse := { tdA with access_token := "tokB", nonce := "nonceB" }

/-- A cached token response whose expiration is far in the future. -/
def tdFast : TokenResponse :=
  { tdA with access_token := "cached-tok", expiration := some 1000000 }

/-- A sample token response with a 300-second time-to-live. -/
def r300 : TokenResponse := { tdA with access_token := "boundary-tok", expires_in := 300 }

/-- A 401 axios error, as produced by an authentication rejection. -/
def e401 : AxiosError :=
  { isAxiosError := true, status := some 401,
    data := some { error_description := some "invalid_token", message := none },
    retryAfter := none, origMessage := "Request failed with status code 401" }

/-- A 429 axios error carrying a retry-after hint of 30 seconds. -/
def e429 : AxiosError :=
  { isAxiosError := true, status := some 429,
    data := some { error_description := some "rate limit exceeded", message := none },
    retryAfter := some "30", origMessage := "Request failed with status code 429" }

/-- A 500 axios error with the same body as `e429` and no retry-after
hint. -/
def e500 : AxiosError := { e429 with status := some 500, retryAfter := none }

/-- A 400 axios error with a structured `error_description` body. -/
def e400 : AxiosError :=
  { isAxiosError := true, status := some 400,
    data := some { error_description := some "invalid_request", message := none },
    retryAfter := none, origMessage := "Request failed with status code 400" }

/-- Two `ensureAccessToken` calls starting concurrently on a cold
cache, call 1's exchange response arriving first at time 5, call 0's
slower exchange response arriving last at time 9. -/
def evtsC1 : List CEvent :=
  [CEvent.start 0 0, CEvent.start 1 0, CEvent.arrive 1 tdB 5, CEvent.arrive 0 tdA 9]

/-- A machine state with two exchange calls in flight for calls 0 and
1 and a still-cold cache. -/
def sPend2 : SysState :=
  { tokenData := none, exchangeCalls := 2, pending := [0, 1], results := [] }

/-- The redaction round-trip payload of the spec:
`security_code`, `number`, and a nested `customer.id`. -/
def payloadC8 : JVal :=
  .obj (.cons "security_code" (.str "123")
    (.cons "number" (.str "4111111111111111")
      (.cons "customer" (.obj (.cons "id" (.str "abc") .nil)) .nil)))

/-- The expected sanitized payload: `security_code` and `number`
masked, `customer.id` untouched. -/
def expectedC8 : JVal :=
  .obj (.cons "security_code" (.str redactionMask)
    (.cons "number" (.str redactionMask)
      (.cons "customer" (.obj (.cons "id" (.str "abc") .nil)) .nil)))

/-- A validated `create_subscription` argument object. -/
def argsC10 : JObj :=
  .cons "plan_id" (.str "P-5ML4271244454362WXNWU5NQ")
    (.cons "subscriber"
      (.obj (.cons "email_address" (.str "customer@example.com") .nil)) .nil)

/-! ## Helper lemmas -/

/-- Running an appended schedule is running the two parts in turn. -/
theorem runSys_append (s : SysState) (a b : List CEvent) :
    runSys s (a ++ b) = runSys (runSys s a) b :=
  List.foldl_append stepSys s a b

/-- Starting `N` calls on a cold cache: every one of them misses the
guard and issues its own exchange, so `N` exchange calls are in flight
and the cache is still cold. -/
theorem runSys_cold_starts (N : Nat) (t : Int) :
    runSys coldSys ((List.range N).map (fun i => CEvent.start i t)) =
      { tokenData := none, exchangeCalls := N, pending := List.range N, results := [] } := by
  induction N with
  | zero => rfl
  | succ n ih =>
      have h2 : (List.range (n + 1)).map (fun i => CEvent.start i t) =
          ((List.range n).map (fun i => CEvent.start i t)) ++ [CEvent.start n t] := by
        rw [List.range_succ, List.map_append]
        rfl
      rw [h2, runSys_append, ih]
      simp [runSys, stepSys, List.range_succ]

/-- Looking up the removed key finds nothing. -/
theorem JObj.lookup_removeKey_self (o : JObj) (key : String) :
    (o.removeKey key).lookup key = none := by
  match o with
  | .nil => rfl
  | .cons k v rest =>
      have ih := JObj.lookup_removeKey_self rest key
      by_cases hk : k = key <;> simp [JObj.removeKey, JObj.lookup, hk, ih]

/-- Removing one key leaves every other key's binding unchanged. -/
theorem JObj.lookup_removeKey_ne (o : JObj) (key k : String) (h : k ≠ key) :
    (o.removeKey key).lookup k = o.lookup k := by
  match o with
  | .nil => rfl
  | .cons k2 v rest =>
      have ih := JObj.lookup_removeKey_ne rest key k h
      have hs : key ≠ k := Ne.symm h
      by_cases h2 : k2 = key
      · have hne : k2 ≠ k := fun hh => h (hh ▸ h2.symm ▸ rfl)
        simp [JObj.removeKey, JObj.lookup, h2, hne, ih, hs]
      · by_cases h3 : k2 = k <;> simp [JObj.removeKey, JObj.lookup, h2, h3, ih, h, hs]

/-- On an axios error that is not a 401 and whose body exposes a truthy
field, `handleRequestError` keeps the cached token and rejects with the
prefixed field value. -/
theorem handleRequestError_exposed (tok : Option TokenResponse) (e : AxiosError)
    (s : String) (hax : e.isAxiosError = true) (h401 : ¬(e.status = some 401))
    (hf : exposedField e = some s) :
    handleRequestError tok e = (tok, .fresh ("PayPal API error: " ++ s)) := by
  unfold handleRequestError
  rw [if_pos hax, if_neg h401]
  by_cases hd : strTruthy (e.data.bind (fun d => d.error_description)) = true
  · rw [exposedField, if_pos hd] at hf
    rw [if_pos hd, hf]
    rfl
  · by_cases hm : strTruthy (e.data.bind (fun d => d.message)) = true
    · rw [exposedField, if_neg hd, if_pos hm] at hf
      rw [if_neg hd, if_pos hm, hf]
      rfl
    · rw [exposedField, if_neg hd, if_neg hm] at hf
      exact Option.noConfusion hf

/-! ## Claim theorems -/

/-- Claim C1, counterexample: two `ensureAccessToken` calls starting
concurrently on a cold cache issue 2 exchange calls, not 1; they
resolve to different tokens; and the final cached token is the
earlier-started exchange's slower response (`tokA`), clobbering the
later-resolved `tokB`. -/
theorem singleFlight_counterexample :
    (runSys coldSys evtsC1).exchangeCalls = 2 ∧
    (runSys coldSys evtsC1).exchangeCalls ≠ 1 ∧
    (runSys coldSys evtsC1).results = [(1, "tokB"), (0, "tokA")] ∧
    ("tokB" : String) ≠ "tokA" ∧
    ((runSys coldSys evtsC1).tokenData.map (fun td => td.access_token)) = some "tokA" :=
  ⟨by decide, by decide, by decide, by decide, by decide⟩

/-- Claim C1, amended: `ensureAccessToken` has no single-flight gate.
`N` concurrent calls on a cold cache issue `N` exchange calls, one per
call, all left in flight; and each arriving exchange response
overwrites the cached token unconditionally, so the cache ends as the
last response to arrive, whichever call issued it. -/
theorem singleFlight_amended (N : Nat) (t : Int) (s : SysState) (i : Nat)
    (r : TokenResponse) (t2 : Int) (hi : i ∈ s.pending) :
    (runSys coldSys ((List.range N).map (fun i2 => CEvent.start i2 t))).exchangeCalls = N ∧
    (runSys coldSys ((List.range N).map (fun i2 => CEvent.start i2 t))).pending = List.range N ∧
    (stepSys s (CEvent.arrive i r t2)).tokenData =
      some { r with expiration := some (t2 + r.expires_in * 1000) } := by
  refine ⟨?_, ?_, ?_⟩
  · rw [runSys_cold_starts]
  · rw [runSys_cold_starts]
  · simp [stepSys, hi]

/-- Witness for the amended claim C1, at `N = 2` and an in-flight call
0 whose response arrives at time 9. -/
theorem singleFlight_amended_witness :
    (0 ∈ sPend2.pending) ∧
    (runSys coldSys ((List.range 2).map (fun i2 => CEvent.start i2 0))).exchangeCalls = 2 ∧
    (runSys coldSys ((List.range 2).map (fun i2 => CEvent.start i2 0))).pending = List.range 2 ∧
    (stepSys sPend2 (CEvent.arrive 0 tdA 9)).tokenData =
      some { tdA with expiration := some (9 + tdA.expires_in * 1000) } :=
  ⟨by decide, singleFlight_amended 2 0 sPend2 0 tdA 9 (by decide)⟩

/-- Claim C2: with a cached token whose expiration is more than the
300-second buffer away, `ensureAccessToken` returns the cached token
string, issues zero network calls, and leaves the cached state
untouched. -/
theorem fastPath_noop (clientId clientSecret : String) (td : TokenResponse)
    (e now : Int) (outcome : ExchangeOutcome) (hexp : td.expiration = some e)
    (h0 : 0 ≤ now) (hlt : now < e - 300 * 1000) :
    ensureAccessToken clientId clientSecret (some td) now outcome =
      (some td, 0, Except.ok td.access_token) := by
  have he : e ≠ 0 := by omega
  have hfast : fastPathOk (some td) now = true := by
    simp [fastPathOk, hexp, he, tokenExpiryBuffer]
    omega
  simp [ensureAccessToken, hfast]

/-- Witness for claim C2: a token expiring at time 1000000, queried at
time 0, is returned as-is with no network call. -/
theorem fastPath_noop_witness :
    tdFast.expiration = some 1000000 ∧ (0 : Int) ≤ 0 ∧ (0 : Int) < 1000000 - 300 * 1000 ∧
    ensureAccessToken "client-id" "client-secret" (some tdFast) 0 (.success tdB) =
      (some tdFast, 0, Except.ok "cached-tok") :=
  ⟨rfl, by decide, by decide,
    fastPath_noop "client-id" "client-secret" tdFast 1000000 0 (.success tdB) rfl
      (by decide) (by decide)⟩

/-- Claim C3: a 401 on any call routed through `handleRequestError`
clears the cached token, and the next `ensureAccessToken` performs a
fresh exchange (one network call, returning the new exchange's result)
regardless of the discarded token's expiry. -/
theorem invalidation_then_renew (tok : Option TokenResponse) (e : AxiosError)
    (cid cs : String) (now : Int) (outcome : ExchangeOutcome)
    (hax : e.isAxiosError = true) (hst : e.status = some 401) :
    (handleRequestError tok e).1 = none ∧
    (ensureAccessToken cid cs (handleRequestError tok e).1 now outcome).2.1 = 1 ∧
    (ensureAccessToken cid cs (handleRequestError tok e).1 now outcome).2.2 =
      (getAccessToken cid cs none now outcome).2.2 := by
  have h1 : (handleRequestError tok e).1 = none := by
    simp [handleRequestError, hax, hst]
  refine ⟨h1, ?_, ?_⟩ <;> rw [h1] <;> simp [ensureAccessToken]

/-- Witness for claim C3: a concrete 401 while a fresh-looking token is
cached; the cache is cleared and the next call re-exchanges. -/
theorem invalidation_then_renew_witness :
    e401.isAxiosError = true ∧ e401.status = some 401 ∧
    (handleRequestError (some tdFast) e401).1 = none ∧
    (ensureAccessToken "client-id" "client-secret"
        (handleRequestError (some tdFast) e401).1 0 (.success tdB)).2.1 = 1 ∧
    (ensureAccessToken "client-id" "client-secret"
        (handleRequestError (some tdFast) e401).1 0 (.success tdB)).2.2 =
      (getAccessToken "client-id" "client-secret" none 0 (.success tdB)).2.2 :=
  ⟨rfl, rfl,
    invalidation_then_renew (some tdFast) e401 "client-id" "client-secret" 0
      (.success tdB) rfl rfl⟩

/-- Claim C4: a token obtained at time `t0` with `expires_in = 300` and
buffer 300 is already expired at `t0` itself (the boundary
`now = expiry - buffer`): the fast path fails and `ensureAccessToken`
performs a fresh exchange. -/
theorem expiryBuffer_boundary (cid cs : String) (tok : Option TokenResponse)
    (t0 : Int) (r : TokenResponse) (outcome2 : ExchangeOutcome)
    (h : r.expires_in = 300) :
    (ensureAccessToken cid cs (getAccessToken cid cs tok t0 (.success r)).1 t0
        outcome2).2.1 = 1 ∧
    (ensureAccessToken cid cs (getAccessToken cid cs tok t0 (.success r)).1 t0
        outcome2).2.2 =
      (getAccessToken cid cs (getAccessToken cid cs tok t0 (.success r)).1 t0
        outcome2).2.2 := by
  have hfast : fastPathOk (getAccessToken cid cs tok t0 (.success r)).1 t0 = false := by
    simp [getAccessToken, fastPathOk, h, tokenExpiryBuffer]
  constructor <;> simp [ensureAccessToken, getAccessToken] at hfast ⊢ <;> simp [hfast]

/-- Witness for claim C4: a token with `expires_in = 300` issued at
time 0 forces an exchange when checked at time 0. -/
theorem expiryBuffer_boundary_witness :
    r300.expires_in = 300 ∧
    (ensureAccessToken "client-id" "client-secret"
        (getAccessToken "client-id" "client-secret" none 0 (.success r300)).1 0
        (.success tdB)).2.1 = 1 ∧
    (ensureAccessToken "client-id" "client-secret"
        (getAccessToken "client-id" "client-secret" none 0 (.success r300)).1 0
        (.success tdB)).2.2 =
      (getAccessToken "client-id" "client-secret"
        (getAccessToken "client-id" "client-secret" none 0 (.success r300)).1 0
        (.success tdB)).2.2 :=
  ⟨rfl, expiryBuffer_boundary "client-id" "client-secret" none 0 r300 (.success tdB) rfl⟩

/-- Claim C5: on a failed exchange, the error `getAccessToken` raises
and the error `verifyCredentials` raises are fixed strings, identical
for any two values of the client secret (so neither can contain the
secret), and likewise the resulting cached state does not depend on
the secret. -/
theorem secret_noninterference (cid s1 s2 : String) (tok : Option TokenResponse)
    (now : Int) (e : AxiosError) :
    (getAccessToken cid s1 tok now (.failure e)).1 =
      (getAccessToken cid s2 tok now (.failure e)).1 ∧
    (getAccessToken cid s1 tok now (.failure e)).2.2 =
      (getAccessToken cid s2 tok now (.failure e)).2.2 ∧
    (getAccessToken cid s1 tok now (.failure e)).2.2 =
      Except.error "Failed to authenticate with PayPal API" ∧
    (verifyCredentials cid s1 tok now (.failure e)).2.2 =
      (verifyCredentials cid s2 tok now (.failure e)).2.2 ∧
    (verifyCredentials cid s1 tok now (.failure e)).2.2 =
      Except.error "Invalid PayPal credentials. Please check your client ID and secret." :=
  ⟨rfl, rfl, rfl, rfl, rfl⟩

/-- Claim C6, counterexample: a 429 response with a retry-after hint of
30 seconds is rejected with the generic body-derived message, which
does not mention the hint, and the result is identical to that of a
500 response with the same body — no rate-limit-specific
classification exists. -/
theorem rateLimit_counterexample :
    (handleRequestError none e429).2 = .fresh "PayPal API error: rate limit exceeded" ∧
    e429.retryAfter = some "30" ∧
    containsSub "30".toList (RejectedError.msg (handleRequestError none e429).2).toList
      = false ∧
    handleRequestError none e429 = handleRequestError none e500 :=
  ⟨rfl, rfl, by decide, rfl⟩

/-- Claim C6, amended: `handleRequestError` gives a 429 no special
treatment.  With a structured body, the rejected error is exactly the
prefixed body field — identical for any non-401 status and any
retry-after header value — and in every case the surfaced message is
unchanged when the retry-after header changes: the hint is never read.
-/
theorem rateLimit_amended (tok : Option TokenResponse) (e : AxiosError)
    (s1 s2 : Option Nat) (r1 r2 r3 r4 : Option String) (s : String)
    (hax : e.isAxiosError = true) (h1 : s1 ≠ some 401) (h2 : s2 ≠ some 401)
    (hf : exposedField e = some s) :
    handleRequestError tok { e with status := s1, retryAfter := r1 } =
      handleRequestError tok { e with status := s2, retryAfter := r2 } ∧
    (handleRequestError tok { e with status := s1, retryAfter := r1 }).2 =
      .fresh ("PayPal API error: " ++ s) ∧
    RejectedError.msg (handleRequestError tok { e with retryAfter := r3 }).2 =
      RejectedError.msg (handleRequestError tok { e with retryAfter := r4 }).2 := by
  have h1e : ¬(({ e with status := s1, retryAfter := r1 } : AxiosError).status = some 401) := h1
  have h2e : ¬(({ e with status := s2, retryAfter := r2 } : AxiosError).status = some 401) := h2
  have hf1 : exposedField { e with status := s1, retryAfter := r1 } = some s := hf
  have hf2 : exposedField { e with status := s2, retryAfter := r2 } = some s := hf
  have e1 := handleRequestError_exposed tok { e with status := s1, retryAfter := r1 } s hax h1e hf1
  have e2 := handleRequestError_exposed tok { e with status := s2, retryAfter := r2 } s hax h2e hf2
  refine ⟨e1.trans e2.symm, by rw [e1], ?_⟩
  by_cases h401 : e.status = some 401
  · simp [handleRequestError, hax, h401]
  · have g3 := handleRequestError_exposed tok { e with retryAfter := r3 } s hax h401 hf
    have g4 := handleRequestError_exposed tok { e with retryAfter := r4 } s hax h401 hf
    rw [g3, g4]

/-- Witness for the amended claim C6: a 429 with a hint and a 500
without one are rejected identically, with the body-derived message. -/
theorem rateLimit_amended_witness :
    (some 429 : Option Nat) ≠ some 401 ∧ (some 500 : Option Nat) ≠ some 401 ∧
    exposedField e429 = some "rate limit exceeded" ∧
    handleRequestError none { e429 with status := some 429, retryAfter := some "30" } =
      handleRequestError none { e429 with status := some 500, retryAfter := none } ∧
    (handleRequestError none { e429 with status := some 429, retryAfter := some "30" }).2 =
      .fresh ("PayPal API error: " ++ "rate limit exceeded") ∧
    RejectedError.msg (handleRequestError none { e429 with retryAfter := some "30" }).2 =
      RejectedError.msg (handleRequestError none { e429 with retryAfter := none }).2 :=
  ⟨by decide, by decide, rfl,
    rateLimit_amended none e429 (some 429) (some 500) (some "30") none (some "30") none
      "rate limit exceeded" rfl (by decide) (by decide) rfl⟩

/-- Claim C7, counterexample: a 400 response whose body exposes
`error_description = "invalid_request"` is rejected with the message
`"PayPal API error: invalid_request"`, which is not equal to the
field's value — the source prefixes it. -/
theorem providerMessage_counterexample :
    e400.status = some 400 ∧
    (e400.data.map (fun d => d.error_description)) = some (some "invalid_request") ∧
    (handleRequestError none e400).2 = .fresh "PayPal API error: invalid_request" ∧
    RejectedError.msg (handleRequestError none e400).2 ≠ "invalid_request" :=
  ⟨rfl, rfl, rfl, by decide⟩

/-- Claim C7, amended: for a 4xx/5xx status other than 401 whose body
exposes a truthy `error_description` or `message`, the rejected
error's message is the string `"PayPal API error: "` followed by that
field's value (`error_description` preferred), and the cached token is
unchanged. -/
theorem providerMessage_amended (tok : Option TokenResponse) (e : AxiosError)
    (n : Nat) (s : String) (hax : e.isAxiosError = true) (hst : e.status = some n)
    (h4 : 400 ≤ n) (h5 : n ≤ 599) (hn : n ≠ 401) (hf : exposedField e = some s) :
    handleRequestError tok e = (tok, .fresh ("PayPal API error: " ++ s)) := by
  have h401 : ¬(e.status = some 401) := by
    rw [hst]
    simp [hn]
  exact handleRequestError_exposed tok e s hax h401 hf

/-- Witness for the amended claim C7: the concrete 400 error yields the
prefixed provider message and leaves the cache alone. -/
theorem providerMessage_amended_witness :
    e400.isAxiosError = true ∧ e400.status = some 400 ∧ (400 : Nat) ≤ 400 ∧
    (400 : Nat) ≤ 599 ∧ (400 : Nat) ≠ 401 ∧
    exposedField e400 = some "invalid_request" ∧
    handleRequestError (some tdFast) e400 =
      (some tdFast, .fresh "PayPal API error: invalid_request") :=
  ⟨rfl, rfl, by decide, by decide, by decide, rfl,
    providerMessage_amended (some tdFast) e400 400 "invalid_request" rfl rfl
      (by decide) (by decide) (by decide) rfl⟩

/-- Claim C8: the sanitizer masks `security_code` and `number` in the
spec's round-trip payload while leaving the nested `customer.id`
untouched; in general, any field whose key case-insensitively matches
a secret-like pattern is replaced by the fixed mask, and objects are
descended into recursively. -/
theorem sanitize_redacts (k : String) (v : JVal) (rest : JObj) (o : JObj)
    (hk : isSensitiveKey k = true) :
    sanitizeForLogging payloadC8 = expectedC8 ∧
    sanitizeObj (.cons k v rest) = .cons k (.str redactionMask) (sanitizeObj rest) ∧
    sanitizeForLogging (.obj o) = .obj (sanitizeObj o) := by
  refine ⟨?_, ?_, ?_⟩
  · simp [payloadC8, expectedC8, sanitizeForLogging, sanitizeObj]
    refine ⟨by decide, by decide, ?_⟩
    rw [if_neg (by decide), if_neg (by decide)]
  · simp [sanitizeObj, hk]
  · simp [sanitizeForLogging]

/-- Witness for claim C8: the key `access_token` matches the pattern
`token` case-insensitively and its value is masked. -/
theorem sanitize_redacts_witness :
    isSensitiveKey "Access_Token" = true ∧
    sanitizeForLogging payloadC8 = expectedC8 ∧
    sanitizeObj (.cons "Access_Token" (.str "A21AA...") .nil) =
      .cons "Access_Token" (.str redactionMask) (sanitizeObj .nil) ∧
    sanitizeForLogging (.obj argsC10) = .obj (sanitizeObj argsC10) :=
  ⟨by decide,
    sanitize_redacts "Access_Token" (.str "A21AA...") .nil argsC10 (by decide)⟩

/-- Claim C9: `getUserInfo` always targets the fixed live identity
endpoint with the caller-supplied token as bearer, for any configured
environment, and its request does not depend on the service instance
at all; the sandbox instance's own base URL differs, showing the
endpoint is not the instance's. -/
theorem getUserInfo_fixed_endpoint (o : PayPalAuthOptions) (args : UserInfoArgs)
    (svc2 : ServiceState) :
    (getUserInfo args (mkService o)).url =
      "https://api-m.paypal.com/v1/identity/oauth2/userinfo?schema=paypalv1.1" ∧
    (getUserInfo args (mkService o)).authorization = "Bearer " ++ args.access_token ∧
    getUserInfo args (mkService o) = getUserInfo args svc2 ∧
    (mkService { o with environment := .sandbox }).baseUrl =
      "https://api-m.sandbox.paypal.com" :=
  ⟨rfl, rfl, rfl, rfl⟩

/-- Claim C10: `createSubscription` posts to
`/v1/billing/subscriptions` a body equal to the arguments with
`plan_id` removed — `plan_id` is looked up only for the log line —
while every other field's binding is forwarded unchanged. -/
theorem createSubscription_strips_plan_id (args : JObj) (k : String)
    (hk : k ≠ "plan_id") :
    (createSubscription args).path = "/v1/billing/subscriptions" ∧
    (createSubscription args).loggedPlanId = args.lookup "plan_id" ∧
    (createSubscription args).body = args.removeKey "plan_id" ∧
    (createSubscription args).body.lookup "plan_id" = none ∧
    (createSubscription args).body.lookup k = args.lookup k :=
  ⟨rfl, rfl, rfl, JObj.lookup_removeKey_self args "plan_id",
    JObj.lookup_removeKey_ne args "plan_id" k hk⟩

/-- Witness for claim C10: concrete subscription arguments keep their
`subscriber` binding and lose `plan_id`. -/
theorem createSubscription_strips_plan_id_witness :
    ("subscriber" : String) ≠ "plan_id" ∧
    (createSubscription argsC10).path = "/v1/billing/subscriptions" ∧
    (createSubscription argsC10).loggedPlanId = argsC10.lookup "plan_id" ∧
    (createSubscription argsC10).body = argsC10.removeKey "plan_id" ∧
    (createSubscription argsC10).body.lookup "plan_id" = none ∧
    (createSubscription argsC10).body.lookup "subscriber" = argsC10.lookup "subscriber" :=
  ⟨by decide, createSubscription_strips_plan_id argsC10 "subscriber" (by decide)⟩

end PayPalMCP
